import Mathlib

/-
  Verification of the WorldPopPy manifest / download engine against its
  natural-language specification.

  The definitions below are a shallow embedding of the Python sources
  src/worldpoppy/manifest.py and src/worldpoppy/download.py:
  pandas dataframes become lists of rows, raised exceptions become
  Except values, and filesystem / network effects become explicit
  environment records whose fields give the outcome of each external call.
-/

namespace WorldPopPy

-- ===================================================================
-- Data model: one cleaned manifest row (manifest.py, build_wp_manifest)
-- ===================================================================

/-- One row of the cleaned WorldPop manifest (columns created in
`build_wp_manifest`). -/
structure ManifestRow where
  idx : Nat
  country_numeric : Nat
  iso3 : String
  country_name : String
  dataset_name : String
  remote_path : String
  notes : String
  is_annual : Bool
  product_name : String
  year : Option Nat
  remote_fname : String
deriving Repr, DecidableEq

/-- manifest.py: FIRST_YEAR = 2000. -/
def FIRST_YEAR : Nat := 2000

-- ===================================================================
-- Year-token extraction (manifest.py: _year_pattern, extract_year,
-- _strip_year, _looks_like_annual_name)
-- ===================================================================

/-- Left-to-right, non-overlapping scan for the regex `_` followed by four
digits (the compiled pattern `_year_pattern`), exactly as `re.findall`
traverses a string: at each position try to match; on success continue
after the match, on failure advance one character. Each match is returned
as the numeric value of its four digits (the Python code later converts
the matched token with `int(matched[1:])`). Dataset names are ASCII, so
ASCII digits model the `\d` class. -/
def yearScanAux : Nat → List Char → List Nat
  | _ + 1, [] => []
  | skip + 1, _ :: cs => yearScanAux skip cs
  | 0, [] => []
  | 0, c :: cs =>
    if c = '_' then
      match cs with
      | d1 :: d2 :: d3 :: d4 :: _ =>
        if d1.isDigit && d2.isDigit && d3.isDigit && d4.isDigit then
          (1000 * (d1.toNat - 48) + 100 * (d2.toNat - 48)
            + 10 * (d3.toNat - 48) + (d4.toNat - 48)) :: yearScanAux 4 cs
        else yearScanAux 0 cs
      | _ => yearScanAux 0 cs
    else yearScanAux 0 cs

def yearTokenScan (l : List Char) : List Nat := yearScanAux 0 l

/-- Whether an `Except` computation finished without an exception. -/
def exceptOk {ε α : Type} : Except ε α → Bool
  | .ok _ => true
  | .error _ => false

/-- manifest.py `extract_year`: a dataset name must contain exactly one
year token, whose value must lie in `[FIRST_YEAR, currentYear]`
(`datetime.now().year` is passed in as the parameter `cy`); otherwise a
ValueError is raised. -/
def extract_year (cy : Nat) (dataset_name : String) : Except String Nat :=
  match yearTokenScan dataset_name.data with
  | [y] =>
    if y < FIRST_YEAR || cy < y then
      .error ("Bad format: " ++ dataset_name)
    else
      .ok y
  | _ => .error ("Bad format: " ++ dataset_name)

/-- manifest.py `_looks_like_annual_name`: true iff `extract_year` does
not raise. -/
def _looks_like_annual_name (cy : Nat) (dataset_name : String) : Bool :=
  exceptOk (extract_year cy dataset_name)

/-- manifest.py `_strip_year`: remove every occurrence of the extracted
year token (Python `str.replace` replaces all occurrences). -/
def _strip_year (cy : Nat) (dataset_name : String) : Except String String :=
  match extract_year cy dataset_name with
  | .error e => .error e
  | .ok y => .ok (dataset_name.replace ("_" ++ toString y) "")

/-- The classification condition stated by the spec: the name contains
exactly one substring matching an underscore followed by four digits
(in `re.findall` scan order), and the four-digit number lies in
`[FIRST_YEAR, currentYear]`. -/
def annualNameSpec (cy : Nat) (name : String) : Prop :=
  ∃ y, yearTokenScan name.data = [y] ∧ FIRST_YEAR ≤ y ∧ y ≤ cy

-- ===================================================================
-- Query surface (manifest.py: wp_manifest, wp_manifest_constrained,
-- _cached_manifest_load and helper validators)
-- ===================================================================

/-- Python string comparison: lexicographic on code points (used by
`sorted(...)`). -/
def charsLe : List Char → List Char → Bool
  | [], _ => true
  | _ :: _, [] => false
  | a :: as, b :: bs =>
    if a.toNat < b.toNat then true
    else if b.toNat < a.toNat then false
    else charsLe as bs

def strLeB (a b : String) : Bool := charsLe a.data b.data

/-- Python `sorted(...)` on a list of strings. -/
def sortStrings (l : List String) : List String :=
  List.insertionSort (fun a b => strLeB a b = true) l

/-- Python `sorted(...)` on a list of naturals. -/
def sortNats (l : List Nat) : List Nat :=
  List.insertionSort (· ≤ ·) l

/-- The ValueError (or AssertionError) variants raised by the manifest
query functions. -/
inductive WpError where
  /-- From `_is_annual_product`: the product name contains a year token. -/
  | productHasYear (p : String)
  /-- From `_is_annual_product`: the product is neither static nor annual. -/
  | unknownProduct (p : String)
  /-- From `_validate_isos`: country codes with no data at all. -/
  | unknownIsos (isos : List String)
  /-- From `_validate_years`: years with no annual data at all. -/
  | unknownYears (ys : List Nat)
  /-- From `wp_manifest_constrained`: annual product but `years is None`. -/
  | yearsRequired (p : String)
  /-- From `wp_manifest_constrained`: static product but `years is not None`. -/
  | yearsForbidden (p : String)
  /-- From `wp_manifest_constrained`: incomplete annual coverage, with the
  per-country map of actually available years
  (`filtered_mdf.groupby('iso3').year.unique().to_dict()`). -/
  | coverageAnnual (p : String) (available : List (String × List (Option Nat)))
  /-- From `wp_manifest_constrained`: incomplete static coverage, with the
  entirely missing countries (`set(iso3_codes) - set(filtered_mdf.iso3)`). -/
  | coverageStatic (p : String) (missing : List String)
  /-- A failing `assert` statement (AssertionError). -/
  | assertViolation
  /-- From `_cached_manifest_load`: duplicated (dataset_name, iso3) pairs. -/
  | duplicateEntries
  /-- From `_cached_manifest_load`: unexpected raster file formats. -/
  | badRasterFormats
deriving Repr, DecidableEq

/-- The `years` argument after scalar normalisation: `None`, a list of
years, or the string keyword for all annual entries. -/
inductive YearsArg where
  | noYears
  | list (ys : List Nat)
  | all
deriving Repr, DecidableEq

/-- manifest.py `get_all_isos`: sorted set of all country codes in the manifest. -/
def get_all_isos (mdf : List ManifestRow) : List String :=
  sortStrings ((mdf.map (fun r => r.iso3)).eraseDups)

/-- manifest.py `get_static_product_names`: sorted set of product names of non-annual
rows. -/
def get_static_product_names (mdf : List ManifestRow) : List String :=
  sortStrings (((mdf.filter (fun r => !r.is_annual)).map (fun r => r.product_name)).eraseDups)

/-- manifest.py `get_annual_product_names`: sorted set of product names of annual
rows. -/
def get_annual_product_names (mdf : List ManifestRow) : List String :=
  sortStrings (((mdf.filter (fun r => r.is_annual)).map (fun r => r.product_name)).eraseDups)

/-- manifest.py `get_all_annual_product_years`: sorted set of years of annual rows. -/
def get_all_annual_product_years (mdf : List ManifestRow) : List Nat :=
  sortNats (((mdf.filter (fun r => r.is_annual)).filterMap (fun r => r.year)).eraseDups)

/-- manifest.py `_is_annual_product`: reject a product name containing a
year token, then classify it as static or annual, rejecting unknown
products. -/
def _is_annual_product (mdf : List ManifestRow) (cy : Nat) (p : String) :
    Except WpError Bool :=
  match extract_year cy p with
  | .ok _ => .error (.productHasYear p)
  | .error _ =>
    if (get_static_product_names mdf).contains p then .ok false
    else if (get_annual_product_names mdf).contains p then .ok true
    else .error (.unknownProduct p)

/-- manifest.py `_validate_isos`: `set(iso3_codes) - set(get_all_isos())`
must be empty. -/
def _validate_isos (mdf : List ManifestRow) (iso3_codes : List String) :
    Except WpError Unit :=
  let unknown := (iso3_codes.filter (fun i => !(get_all_isos mdf).contains i)).eraseDups
  if unknown = [] then .ok () else .error (.unknownIsos unknown)

/-- manifest.py `_validate_years` (list branch):
`set(years) - set(get_all_annual_product_years())` must be empty. The
string branch accepts exactly the keyword for all years, which is the
`YearsArg.all` constructor. -/
def _validate_years (mdf : List ManifestRow) : YearsArg → Except WpError Unit
  | .noYears => .ok ()
  | .all => .ok ()
  | .list ys =>
    let unknown := (ys.filter (fun y => !(get_all_annual_product_years mdf).contains y)).eraseDups
    if unknown = [] then .ok () else .error (.unknownYears unknown)

/-- The country-code filter step of `wp_manifest`: validation runs against
the full manifest, the filter against the current frame. -/
def wpIsoStep (full cur : List ManifestRow) :
    Option (List String) → Except WpError (List ManifestRow)
  | none => .ok cur
  | some isos =>
    match _validate_isos full isos with
    | .error e => .error e
    | .ok _ => .ok (cur.filter (fun r => isos.contains r.iso3))

/-- The years filter step of `wp_manifest`: `mdf['year'].isin(years)` for a
concrete list (static rows, whose year is null, never match), and
`mdf[mdf['is_annual']]` for the all-years keyword. -/
def wpYearStep (full cur : List ManifestRow) :
    YearsArg → Except WpError (List ManifestRow)
  | .noYears => .ok cur
  | .list ys =>
    match _validate_years full (.list ys) with
    | .error e => .error e
    | .ok _ =>
      .ok (cur.filter (fun r =>
        match r.year with
        | some y => ys.contains y
        | none => false))
  | .all =>
    match _validate_years full .all with
    | .error e => .error e
    | .ok _ => .ok (cur.filter (fun r => r.is_annual))

/-- manifest.py `wp_manifest`: the no-filter case returns the full
manifest; otherwise the product filter runs first (a static product
silently discards the years argument), then the country filter, then the
years filter. -/
def wp_manifest (mdf : List ManifestRow) (cy : Nat)
    (product_name : Option String) (iso3_codes : Option (List String))
    (years : YearsArg) : Except WpError (List ManifestRow) :=
  if product_name = none ∧ iso3_codes = none ∧ years = .noYears then
    .ok mdf
  else
    match product_name with
    | none =>
      match wpIsoStep mdf mdf iso3_codes with
      | .error e => .error e
      | .ok cur => wpYearStep mdf cur years
    | some p =>
      match _is_annual_product mdf cy p with
      | .error e => .error e
      | .ok ia =>
        let years1 := if ia then years else .noYears
        match wpIsoStep mdf (mdf.filter (fun r => r.product_name == p)) iso3_codes with
        | .error e => .error e
        | .ok cur => wpYearStep mdf cur years1

/-- Model of `filtered_mdf.groupby('iso3').year.unique().to_dict()`: pandas sorts
the group keys; within each group the unique year values keep their order
of appearance. -/
def availableGrps (filtered : List ManifestRow) :
    List (String × List (Option Nat)) :=
  (sortStrings ((filtered.map (fun r => r.iso3)).eraseDups)).map
    (fun i => (i, ((filtered.filter (fun r => r.iso3 == i)).map (fun r => r.year)).eraseDups))

/-- The annual completeness check of `wp_manifest_constrained`:
`num_expected = len(iso3_codes) * len(years)`; fewer rows raise the
coverage error, the trailing `assert` rejects any other mismatch. -/
def coverCheckAnnual (p : String) (isos : List String) (numYears : Nat)
    (filtered : List ManifestRow) : Except WpError (List ManifestRow) :=
  if filtered.length < isos.length * numYears then
    .error (.coverageAnnual p (availableGrps filtered))
  else if isos.length * numYears ≠ filtered.length then .error .assertViolation
  else .ok filtered

/-- manifest.py `wp_manifest_constrained`: filter via `wp_manifest`, then
require the years argument iff the product is annual, then enforce
completeness of the (country, year) cross product. For the all-years
keyword the years are re-derived as the unique year values of the already
filtered frame (`filtered_mdf.year.unique()`), after the
`product_name.nunique() == 1` assert. -/
def wp_manifest_constrained (mdf : List ManifestRow) (cy : Nat)
    (p : String) (iso3_codes : List String) (years : YearsArg) :
    Except WpError (List ManifestRow) :=
  match wp_manifest mdf cy (some p) (some iso3_codes) years with
  | .error e => .error e
  | .ok filtered =>
    match _is_annual_product mdf cy p with
    | .error e => .error e
    | .ok true =>
      match years with
      | .noYears => .error (.yearsRequired p)
      | .list ys => coverCheckAnnual p iso3_codes ys.length filtered
      | .all =>
        if ((filtered.map (fun r => r.product_name)).eraseDups).length ≠ 1 then
          .error .assertViolation
        else
          coverCheckAnnual p iso3_codes
            ((filtered.map (fun r => r.year)).eraseDups).length filtered
    | .ok false =>
      if years ≠ .noYears then .error (.yearsForbidden p)
      else if filtered.length < iso3_codes.length then
        .error (.coverageStatic p
          ((iso3_codes.filter (fun i => !(filtered.map (fun r => r.iso3)).contains i)).eraseDups))
      else if iso3_codes.length ≠ filtered.length then .error .assertViolation
      else .ok filtered

/-- The key on which `_cached_manifest_load` checks for duplicates:
`mdf.duplicated(['dataset_name', 'iso3'])`. -/
def keyPairs (mdf : List ManifestRow) : List (String × String) :=
  mdf.map (fun r => (r.dataset_name, r.iso3))

/-- Whether a list contains a repeated element (`duplicated(...).any()`). -/
def hasDup : List (String × String) → Bool
  | [] => false
  | x :: xs => xs.contains x || hasDup xs

/-- Model of `x[-1]` of `path.split('.')`: the extension component checked against
the raster format. -/
def lastDotComponent (s : String) : String :=
  (s.splitOn ".").getLastD ""

/-- manifest.py `_cached_manifest_load` (validation part): reject
duplicated (dataset_name, iso3) pairs, then reject unless
`set(raster_formats) == {'tif'}` — i.e. unless the manifest is nonempty
and every extension component is the raster extension. -/
def _cached_manifest_load (mdf : List ManifestRow) :
    Except WpError (List ManifestRow) :=
  if hasDup (keyPairs mdf) then .error .duplicateEntries
  else if !(!mdf.isEmpty && mdf.all (fun r => lastDotComponent r.remote_path == "tif")) then
    .error .badRasterFormats
  else .ok mdf

-- ===================================================================
-- Catalogue sync (manifest.py: build_wp_manifest)
-- ===================================================================

/-- The exception classes that can come out of the FTP layer.
`build_wp_manifest` catches exactly (ConnectionError, ftplib.error_reply,
ftplib.error_proto, OSError) around the remote hash check; everything
else propagates. -/
inductive FtpExn where
  | connectionError
  | errorReply
  | errorProto
  | osError
  | errorTemp
  | errorPerm
  | other (msg : String)
deriving Repr, DecidableEq

/-- Membership in the tuple of exception classes caught by the staleness
check of `build_wp_manifest`. -/
def caughtByHashCheck : FtpExn → Bool
  | .connectionError => true
  | .errorReply => true
  | .errorProto => true
  | .osError => true
  | _ => false

/-- One row of the raw WorldPop manifest CSV, in the column order the
code assigns (`idx, country_numeric, iso3, country_name, dataset_name,
remote_path, notes`). -/
structure RawRow where
  idx : Nat
  country_numeric : Nat
  iso3 : String
  country_name : String
  dataset_name : String
  remote_path : String
  notes : String
deriving Repr, DecidableEq

/-- The cleaning step of `build_wp_manifest`: derive `is_annual`,
`product_name`, `year` and `remote_fname` from the raw columns. -/
def cleanRow (cy : Nat) (raw : RawRow) : ManifestRow :=
  let annual := _looks_like_annual_name cy raw.dataset_name
  { idx := raw.idx
    country_numeric := raw.country_numeric
    iso3 := raw.iso3
    country_name := raw.country_name
    dataset_name := raw.dataset_name
    remote_path := raw.remote_path
    notes := raw.notes
    is_annual := annual
    product_name :=
      if annual then
        match _strip_year cy raw.dataset_name with
        | .ok s => s
        | .error _ => raw.dataset_name
      else raw.dataset_name
    year := if annual then (extract_year cy raw.dataset_name).toOption else none
    remote_fname := (raw.remote_path.splitOn "/").getLastD "" }

/-- The external state `build_wp_manifest` interacts with: whether the
cleaned manifest file and the stored hash exist locally, and the outcome
of the two remote fetches (each already after the FTP helper's own
retries). -/
structure SyncEnv where
  manifestOnDisk : Bool
  hashOnDisk : Option String
  remoteHashFetch : Except FtpExn String
  csvFetch : Except FtpExn (List RawRow)

instance {ε α : Type} [DecidableEq ε] [DecidableEq α] : DecidableEq (Except ε α) :=
  fun x y =>
    match x, y with
    | .ok a, .ok b =>
      if h : a = b then .isTrue (by rw [h])
      else .isFalse (by intro hc; cases hc; exact h rfl)
    | .error a, .error b =>
      if h : a = b then .isTrue (by rw [h])
      else .isFalse (by intro hc; cases hc; exact h rfl)
    | .ok _, .error _ => .isFalse (by intro hc; cases hc)
    | .error _, .ok _ => .isFalse (by intro hc; cases hc)

/-- What a call to `build_wp_manifest` leaves behind: the returned value
(`none` for the two no-op returns, the cleaned manifest on refresh) or
the propagated exception, plus whether `_last_check_date_fpath.touch` ran. -/
structure SyncResult where
  result : Except FtpExn (Option (List ManifestRow))
  touched : Bool
deriving Repr, DecidableEq

/-- The refresh tail of `build_wp_manifest`: download the raw CSV, clean
it, store it, and touch the last-check timestamp. A failed download
propagates before any touch. -/
def refreshManifest (cy : Nat) (env : SyncEnv) : SyncResult :=
  match env.csvFetch with
  | .error e => { result := .error e, touched := false }
  | .ok raw => { result := .ok (some (raw.map (cleanRow cy))), touched := true }

/-- manifest.py `build_wp_manifest`: if a cleaned manifest and a stored
hash exist and no overwrite is forced, compare the remote hash against
the stored one — equal means a touched no-op, a network-classified fetch
error means an untouched no-op, any other fetch error propagates; in all
remaining cases refresh the manifest. -/
def build_wp_manifest (overwrite : Bool) (cy : Nat) (env : SyncEnv) : SyncResult :=
  if env.manifestOnDisk && !overwrite then
    match env.hashOnDisk with
    | some localHash =>
      match env.remoteHashFetch with
      | .ok remoteHash =>
        if remoteHash = localHash then { result := .ok none, touched := true }
        else refreshManifest cy env
      | .error e =>
        if caughtByHashCheck e then { result := .ok none, touched := false }
        else { result := .error e, touched := false }
    | none => refreshManifest cy env
  else refreshManifest cy env

-- ===================================================================
-- Download engine (download.py: WorldPopDownloader, DownloadResult)
-- ===================================================================

/-- httpx exception classes: `HTTPStatusError` from `raise_for_status`
(carrying the request URL and status code) and transport-level errors
such as timeouts. Both derive from `httpx.HTTPError`. -/
inductive HttpErr where
  | statusError (url : String) (code : Nat)
  | transport (url : String)
deriving Repr, DecidableEq

/-- A Python exception as seen by the per-file workers: an httpx
`HTTPError`, or anything else (OSError from mkdir/rename and the like). -/
inductive PyExn where
  | http (e : HttpErr)
  | os (msg : String)
deriving Repr, DecidableEq

/-- Model of `isinstance(e, httpx.HTTPError)` — the predicate the backoff
decorator of `_download_file` retries on. -/
def isHTTPError : PyExn → Bool
  | .http _ => true
  | .os _ => false

/-- download.py `DownloadResult`. -/
structure DownloadResult where
  success : Bool
  value : Option Nat := none
  error : Option PyExn := none
deriving Repr, DecidableEq

/-- The remote and local filesystem as one per-file worker sees them:
whether the local artifact already exists, the outcome of the streamed
GET (including `raise_for_status`) on each attempt, the outcome of the
temp-file rename on each attempt, and the outcome of the HEAD probe
(`.ok` carries the optional Content-Length header). -/
structure FileEnv where
  localExists : Bool
  getOutcome : Nat → Except PyExn Unit
  renameOutcome : Nat → Except String Unit
  head : Except PyExn (Option Nat)

/-- One call of the body of `_download_file` (attempt number `i`): the
skip-if-exists short circuit, then the whole streamed transfer inside
`except Exception` — any exception there becomes a failure result — and
finally the rename, which sits outside the try block, so its failure
propagates (as an OSError, never an `httpx.HTTPError`). -/
def downloadFileBody (skip : Bool) (env : FileEnv) (i : Nat) :
    Except PyExn DownloadResult :=
  if env.localExists && skip then .ok { success := true }
  else
    match env.getOutcome i with
    | .error e => .ok { success := false, error := some e }
    | .ok _ =>
      match env.renameOutcome i with
      | .error msg => .error (.os msg)
      | .ok _ => .ok { success := true }

/-- Model of `backoff.on_exception(backoff.expo, E, max_tries=n, ...)`: run the
wrapped function; when it raises a retryable exception and attempts
remain, run it again, otherwise re-raise. The backoff delays and jitter
do not affect the returned value and are not modelled. -/
def backoffRun (retryable : PyExn → Bool) (f : Nat → Except PyExn DownloadResult) :
    Nat → Nat → Except PyExn DownloadResult
  | 0, i => f i
  | 1, i => f i
  | fuel + 2, i =>
    match f i with
    | .ok a => .ok a
    | .error e =>
      if retryable e then backoffRun retryable f (fuel + 1) (i + 1)
      else .error e

/-- download.py `_download_file`: the body wrapped in
`backoff.on_exception(backoff.expo, HTTPError, max_tries=5, jitter=...)`. -/
def _download_file (skip : Bool) (env : FileEnv) : Except PyExn DownloadResult :=
  backoffRun isHTTPError (downloadFileBody skip env) 5 0

/-- download.py `_get_required_file_download_size`: the skip-if-exists
short circuit reports size zero; otherwise one HEAD request inside
`except Exception`, with a missing Content-Length header read as zero.
The source attaches no retry decorator to this function. -/
def _get_required_file_download_size (skip : Bool) (env : FileEnv) : DownloadResult :=
  if env.localExists && skip then { success := true, value := some 0 }
  else
    match env.head with
    | .error e => { success := false, error := some e }
    | .ok hdr => { success := true, value := some (hdr.getD 0) }

/-- download.py `_build_local_fpath`. -/
def _build_local_fpath (dir : String) (product_name iso3 : String)
    (year : Option Nat) : String :=
  match year with
  | none => dir ++ "/" ++ product_name ++ "_" ++ iso3 ++ ".tif"
  | some y => dir ++ "/" ++ product_name ++ "_" ++ iso3 ++ "_" ++ toString y ++ ".tif"

/-- The local download paths of a resolved manifest subset, in row order. -/
def localPathsOf (dir : String) (rows : List ManifestRow) : List String :=
  rows.map (fun r => _build_local_fpath dir r.product_name r.iso3 r.year)

/-- The per-file results of the dry-run size probes, in request order
(pqdm restores input order regardless of completion order). -/
def perFileSizeResults (skip : Bool) (env : Nat → FileEnv) (n : Nat) :
    List DownloadResult :=
  (List.range n).map (fun i => _get_required_file_download_size skip (env i))

/-- The per-file outcomes of the real transfers, in request order; an
`.error` entry is an exception that escaped the worker (pqdm's default
exception behaviour stores it in the result list). -/
def perFileDownloadResults (skip : Bool) (env : Nat → FileEnv) (n : Nat) :
    List (Except PyExn DownloadResult) :=
  (List.range n).map (fun i => _download_file skip (env i))

/-- The first stored worker exception, if any: the aggregation loop
`[r.error for r in res if not r.success]` blows up (AttributeError) at
the first list entry that is an exception object rather than a
DownloadResult. -/
def firstRaised : List (Except PyExn DownloadResult) → Option PyExn
  | [] => none
  | .error e :: _ => some e
  | .ok _ :: rest => firstRaised rest

/-- Model of `[r.error for r in res if not r.success]`. -/
def collectFailures (drs : List DownloadResult) : List PyExn :=
  (drs.filter (fun r => !r.success)).filterMap (fun r => r.error)

/-- The dry-run summary the code prints: number of files that actually
need a transfer (`r.success and r.value > 0`) and their total byte
size. -/
def dryStats (res : List DownloadResult) : Nat × Nat :=
  let pos := res.filter (fun r => r.success && 0 < r.value.getD 0)
  (pos.length, (pos.map (fun r => r.value.getD 0)).sum)

/-- The errors `WorldPopDownloader.download` can raise. -/
inductive DlErr where
  /-- A ValueError from `wp_manifest_constrained`. -/
  | manifest (e : WpError)
  /-- A `DownloadSizeCheckError`, enumerating every failed probe's error. -/
  | sizeCheck (errors : List PyExn)
  /-- A `DownloadError`, enumerating every failed transfer's error. -/
  | downloadFailed (errors : List PyExn)
  /-- An exception escaped a worker and poisoned the aggregation loop. -/
  | workerRaised (e : PyExn)
deriving Repr, DecidableEq

/-- What a completed `download` call hands back: the return value (the
lexically sorted local paths) and, for a dry run, the printed
(file count, total size) report. -/
structure DlOutcome where
  paths : List String
  report : Option (Nat × Nat) := none
deriving Repr, DecidableEq

/-- download.py `WorldPopDownloader.download`: resolve the request via
`wp_manifest_constrained`, build the local paths, then either probe all
sizes (dry run) or transfer all files, aggregate the per-file failures
into a single typed error, and on success return the lexically sorted
local paths — for a dry run together with the printed report. -/
def download (mdf : List ManifestRow) (cy : Nat) (dir : String)
    (p : String) (isos : List String) (years : YearsArg)
    (skip dryRun : Bool) (env : Nat → FileEnv) : Except DlErr DlOutcome :=
  match wp_manifest_constrained mdf cy p isos years with
  | .error e => .error (.manifest e)
  | .ok rows =>
    let localPaths := localPathsOf dir rows
    if dryRun then
      let res := perFileSizeResults skip env rows.length
      let errs := collectFailures res
      if errs ≠ [] then .error (.sizeCheck errs)
      else .ok { paths := sortStrings localPaths, report := some (dryStats res) }
    else
      let res := perFileDownloadResults skip env rows.length
      match firstRaised res with
      | some e => .error (.workerRaised e)
      | none =>
        let errs := collectFailures (res.filterMap (fun r => r.toOption))
        if errs ≠ [] then .error (.downloadFailed errs)
        else .ok { paths := sortStrings localPaths, report := none }

-- ===================================================================
-- Concrete fixtures for witnesses and counterexamples
-- ===================================================================

/-- A cleaned manifest row with the fields the claims exercise. -/
def mkRow (i : Nat) (iso name prod : String) (ann : Bool) (yr : Option Nat) :
    ManifestRow :=
  { idx := i, country_numeric := i, iso3 := iso, country_name := iso,
    dataset_name := name,
    remote_path := "GIS/" ++ name ++ "/" ++ iso ++ ".tif",
    notes := "n", is_annual := ann, product_name := prod, year := yr,
    remote_fname := iso ++ ".tif" }

/-- A small cleaned manifest: the annual product over two countries with
unequal year coverage, plus one static product. -/
def M1 : List ManifestRow :=
  [ mkRow 1 "LIE" "ppp_2010" "ppp" true (some 2010),
    mkRow 2 "LIE" "ppp_2011" "ppp" true (some 2011),
    mkRow 3 "CHE" "ppp_2010" "ppp" true (some 2010),
    mkRow 4 "LIE" "srtm_slope_100m" "srtm_slope_100m" false none ]

/-- The rows `wp_manifest_constrained` resolves for the annual product
over the first country and both years. -/
def M1ppLIE : List ManifestRow :=
  [ mkRow 1 "LIE" "ppp_2010" "ppp" true (some 2010),
    mkRow 2 "LIE" "ppp_2011" "ppp" true (some 2011) ]

/-- The years the claim reads out of the all-years wildcard: every year
available for the product anywhere in the catalogue. -/
def productYears (mdf : List ManifestRow) (p : String) : List Nat :=
  ((mdf.filter (fun r => r.product_name == p && r.is_annual)).filterMap
    (fun r => r.year)).eraseDups

/-- A per-file environment with no local artifact and a HEAD probe
reporting a positive size. -/
def envCold : Nat → FileEnv := fun i =>
  { localExists := false
    getOutcome := fun _ => .ok ()
    renameOutcome := fun _ => .ok ()
    head := .ok (some (1000000 + i)) }

/-- A per-file environment in which every artifact already exists. -/
def envWarm : Nat → FileEnv := fun _ =>
  { localExists := true
    getOutcome := fun _ => .ok ()
    renameOutcome := fun _ => .ok ()
    head := .ok (some 1000000) }

/-- A per-file environment whose first GET attempt fails with a transient
transport error (a timeout) while every later attempt would succeed. -/
def envFlaky : FileEnv :=
  { localExists := false
    getOutcome := fun i =>
      if i = 0 then .error (.http (.transport "https://data.worldpop.org/GIS/ppp_2010/LIE.tif"))
      else .ok ()
    renameOutcome := fun _ => .ok ()
    head := .error (.http (.transport "https://data.worldpop.org/GIS/ppp_2010/LIE.tif")) }

/-- A sync environment in which the remote hash fetch dies with a
network-classified error (DNS failure mapped to ConnectionError). -/
def envNetDown : SyncEnv :=
  { manifestOnDisk := true
    hashOnDisk := some "d41d8cd98f00b204e9800998ecf8427e"
    remoteHashFetch := .error .connectionError
    csvFetch := .ok [] }

/-- The usage-error variants of `WpError` (spec taxonomy (1)): raised on
malformed arguments before any coverage reporting, as opposed to the
coverage and integrity variants. -/
def usageError : WpError → Bool
  | .productHasYear _ => true
  | .unknownProduct _ => true
  | .unknownIsos _ => true
  | .unknownYears _ => true
  | .yearsRequired _ => true
  | .yearsForbidden _ => true
  | _ => false

/-- The claim's reading of the extension invariant: the remote path ends
in the raster extension. -/
def endsWithTif (s : String) : Bool := s.endsWith ".tif"

-- ===================================================================
-- Theorems
-- ===================================================================

/-- Helper: `extract_year` succeeds exactly on names satisfying the
one-in-range-year-token condition. -/
theorem extract_year_ok_iff (cy : Nat) (s : String) :
    exceptOk (extract_year cy s) = true ↔ annualNameSpec cy s := by
  unfold extract_year annualNameSpec
  cases hscan : yearTokenScan s.data with
  | nil => simp [hscan, exceptOk]
  | cons y t =>
    cases t with
    | nil =>
      simp only [hscan]
      by_cases hy : y < FIRST_YEAR || cy < y
      · simp only [hy, if_true, exceptOk]
        simp only [Bool.or_eq_true, decide_eq_true_eq] at hy
        constructor
        · intro h; cases h
        · rintro ⟨y', hy', h1, h2⟩
          injection hy' with h3 _
          subst h3
          omega
      · simp only [hy, if_false, exceptOk]
        simp only [Bool.or_eq_true, decide_eq_true_eq, not_or, not_lt] at hy
        constructor
        · intro _; exact ⟨y, rfl, hy.1, hy.2⟩
        · intro _; rfl
    | cons z t' =>
      simp [hscan, exceptOk]

/-- C5: a dataset name is classified as annual iff it contains exactly one
year token (an underscore followed by four digits, in regex-scan order)
whose value lies in [FIRST_YEAR, currentYear]; `extract_year` raises a
ValueError in exactly the complementary cases. -/
theorem C5_annual_classification (cy : Nat) (s : String) :
    (_looks_like_annual_name cy s = true ↔ annualNameSpec cy s) ∧
    ((exceptOk (extract_year cy s) = false) ↔ ¬ annualNameSpec cy s) := by
  have h := extract_year_ok_iff cy s
  refine ⟨h, ?_⟩
  rw [← h]
  cases exceptOk (extract_year cy s) <;> simp

/-- Helper: the duplicate scan of `_cached_manifest_load` finds nothing
exactly on key lists without repetitions. -/
theorem hasDup_eq_false_iff (l : List (String × String)) :
    hasDup l = false ↔ l.Nodup := by
  induction l with
  | nil => simp [hasDup]
  | cons x xs ih =>
    simp only [hasDup, Bool.or_eq_false_iff, List.nodup_cons, ih]
    constructor
    · rintro ⟨h1, h2⟩
      refine ⟨fun hmem => ?_, h2⟩
      rw [show xs.contains x = xs.elem x from rfl] at h1
      rw [(List.elem_iff).2 hmem] at h1
      cases h1
    · rintro ⟨h1, h2⟩
      refine ⟨?_, h2⟩
      rw [show xs.contains x = xs.elem x from rfl]
      cases he : xs.elem x
      · rfl
      · exact absurd (List.elem_iff.1 he) h1

/-- C9 counterexample: the empty manifest violates the claimed iff — it
has no duplicated (dataset_name, iso3) pair and no entry whose remote
path fails to end in .tif, yet `_cached_manifest_load` raises the
catalogue-integrity error, because `set(raster_formats) != {'tif'}` holds
for an empty format set. -/
theorem C9_empty_manifest_counterexample :
    (keyPairs ([] : List ManifestRow)).Nodup ∧
    (∀ r ∈ ([] : List ManifestRow), endsWithTif r.remote_path = true) ∧
    _cached_manifest_load ([] : List ManifestRow) = .error .badRasterFormats := by
  refine ⟨List.nodup_nil, ?_, rfl⟩
  intro r hr
  cases hr

/-- C9 (amended): `_cached_manifest_load` loads a manifest unchanged iff
its (dataset_name, iso3) pairs are pairwise distinct, it is nonempty, and
every entry's extension component (the last dot-separated part of the
remote path) is the raster extension; otherwise it raises exactly the
duplicate-entries or bad-formats integrity error, never silently
repairing. -/
theorem C9_integrity_characterization (mdf : List ManifestRow) :
    (_cached_manifest_load mdf = .ok mdf ↔
      ((keyPairs mdf).Nodup ∧ mdf ≠ [] ∧
        ∀ r ∈ mdf, lastDotComponent r.remote_path = "tif")) ∧
    (_cached_manifest_load mdf = .ok mdf ∨
      _cached_manifest_load mdf = .error .duplicateEntries ∨
      _cached_manifest_load mdf = .error .badRasterFormats) := by
  unfold _cached_manifest_load
  cases hdup : hasDup (keyPairs mdf) with
  | true =>
    rw [if_pos rfl]
    constructor
    · constructor
      · intro h; cases h
      · rintro ⟨hnd, _, _⟩
        rw [← hasDup_eq_false_iff] at hnd
        rw [hdup] at hnd
        cases hnd
    · right; left; rfl
  | false =>
    rw [if_neg (by simp)]
    have hnd : (keyPairs mdf).Nodup := (hasDup_eq_false_iff _).1 hdup
    by_cases hfmt : (!mdf.isEmpty && mdf.all fun r => lastDotComponent r.remote_path == "tif") = true
    · rw [if_neg (by simp [hfmt])]
      simp only [Bool.and_eq_true, Bool.not_eq_true', List.all_eq_true, beq_iff_eq] at hfmt
      constructor
      · constructor
        · intro _
          refine ⟨hnd, ?_, hfmt.2⟩
          intro hnil
          rw [hnil] at hfmt
          cases hfmt.1
        · intro _; rfl
      · left; rfl
    · rw [Bool.not_eq_true] at hfmt
      rw [if_pos (by simp [hfmt])]
      simp only [Bool.and_eq_false_iff] at hfmt
      constructor
      · constructor
        · intro h; cases h
        · rintro ⟨_, hne, hall⟩
          rcases hfmt with h1 | h2
          · simp only [Bool.not_eq_false', List.isEmpty_iff] at h1
            exact absurd h1 hne
          · rw [List.all_eq_false] at h2
            rcases h2 with ⟨r, hr, hbad⟩
            rw [hall r hr] at hbad
            simp at hbad
      · right; right; rfl

/-- C10: with a concrete list of years (not the all-years keyword) and no
product filter, every returned row carries one of the requested years —
in particular every static entry (null year) is excluded. -/
theorem C10_static_dropped_without_product_filter
    (mdf : List ManifestRow) (cy : Nat) (isos : Option (List String))
    (ys : List Nat) (rows : List ManifestRow)
    (h : wp_manifest mdf cy none isos (.list ys) = .ok rows) :
    ∀ r ∈ rows, r.year ≠ none ∧ ∃ y, r.year = some y ∧ y ∈ ys := by
  intro r hr
  unfold wp_manifest at h
  rw [if_neg (by simp)] at h
  cases hstep : wpIsoStep mdf mdf isos with
  | error e => simp only [hstep] at h; cases h
  | ok cur =>
    simp only [hstep] at h
    unfold wpYearStep at h
    cases hv : _validate_years mdf (.list ys) with
    | error e => simp only [hv] at h; cases h
    | ok u =>
      simp only [hv] at h
      injection h with h2
      rw [← h2] at hr
      have hmem := List.mem_filter.1 hr
      rcases hmem with ⟨_, hpred⟩
      cases hy : r.year with
      | none => rw [hy] at hpred; cases hpred
      | some y =>
        rw [hy] at hpred
        refine ⟨by simp [hy], y, rfl, ?_⟩
        exact List.elem_iff.1 hpred

/-- C10 witness: on the concrete manifest, filtering by the year 2010
alone returns exactly the two annual 2010 rows and drops the static
entry. -/
theorem C10_witness :
    ∃ rows, wp_manifest M1 2026 none none (.list [2010]) = .ok rows ∧
      ∀ r ∈ rows, r.year ≠ none := by
  refine ⟨_, rfl, ?_⟩
  intro r hr
  exact (C10_static_dropped_without_product_filter M1 2026 none [2010] _ rfl r hr).1

/-- Helper: `_is_annual_product` only raises usage errors. -/
theorem _is_annual_product_error_usage (mdf : List ManifestRow) (cy : Nat)
    (p : String) (e : WpError) (h : _is_annual_product mdf cy p = .error e) :
    usageError e = true := by
  unfold _is_annual_product at h
  cases hx : extract_year cy p with
  | ok y =>
    simp only [hx] at h
    injection h with h1
    rw [← h1]
    rfl
  | error m =>
    simp only [hx] at h
    split at h
    · cases h
    · split at h
      · cases h
      · injection h with h1
        rw [← h1]
        rfl

/-- Helper: `_validate_isos` only raises usage errors. -/
theorem _validate_isos_error_usage (mdf : List ManifestRow)
    (isos : List String) (e : WpError) (h : _validate_isos mdf isos = .error e) :
    usageError e = true := by
  simp only [_validate_isos] at h
  split at h
  · cases h
  · injection h with h1
    rw [← h1]
    rfl

/-- Helper: `_validate_years` only raises usage errors. -/
theorem _validate_years_error_usage (mdf : List ManifestRow)
    (years : YearsArg) (e : WpError) (h : _validate_years mdf years = .error e) :
    usageError e = true := by
  cases years with
  | noYears => cases h
  | all => cases h
  | list ys =>
    simp only [_validate_years] at h
    split at h
    · cases h
    · injection h with h1
      rw [← h1]
      rfl

/-- Helper: the country filter step only raises usage errors. -/
theorem wpIsoStep_error_usage (full cur : List ManifestRow)
    (isosOpt : Option (List String)) (e : WpError)
    (h : wpIsoStep full cur isosOpt = .error e) : usageError e = true := by
  cases isosOpt with
  | none => cases h
  | some isos =>
    unfold wpIsoStep at h
    cases hv : _validate_isos full isos with
    | error e1 =>
      simp only [hv] at h
      injection h with h1
      rw [← h1]
      exact _validate_isos_error_usage full isos e1 hv
    | ok u => simp only [hv] at h; cases h

/-- Helper: the years filter step only raises usage errors. -/
theorem wpYearStep_error_usage (full cur : List ManifestRow)
    (years : YearsArg) (e : WpError)
    (h : wpYearStep full cur years = .error e) : usageError e = true := by
  cases years with
  | noYears => cases h
  | all =>
    unfold wpYearStep at h
    cases h
  | list ys =>
    unfold wpYearStep at h
    cases hv : _validate_years full (.list ys) with
    | error e1 =>
      simp only [hv] at h
      injection h with h1
      rw [← h1]
      exact _validate_years_error_usage full (.list ys) e1 hv
    | ok u => simp only [hv] at h; cases h

/-- Helper: `wp_manifest` only raises usage errors — never coverage or
integrity errors. -/
theorem wp_manifest_error_usage (mdf : List ManifestRow) (cy : Nat)
    (pOpt : Option String) (isosOpt : Option (List String)) (years : YearsArg)
    (e : WpError) (h : wp_manifest mdf cy pOpt isosOpt years = .error e) :
    usageError e = true := by
  unfold wp_manifest at h
  split at h
  · cases h
  · cases pOpt with
    | none =>
      cases hstep : wpIsoStep mdf mdf isosOpt with
      | error e1 =>
        simp only [hstep] at h
        injection h with h1
        rw [← h1]
        exact wpIsoStep_error_usage mdf mdf isosOpt e1 hstep
      | ok cur =>
        simp only [hstep] at h
        exact wpYearStep_error_usage mdf cur years e h
    | some p =>
      cases hia : _is_annual_product mdf cy p with
      | error e1 =>
        simp only [hia] at h
        injection h with h1
        rw [← h1]
        exact _is_annual_product_error_usage mdf cy p e1 hia
      | ok ia =>
        simp only [hia] at h
        cases hstep : wpIsoStep mdf (mdf.filter (fun r => r.product_name == p)) isosOpt with
        | error e1 =>
          simp only [hstep] at h
          injection h with h1
          rw [← h1]
          exact wpIsoStep_error_usage mdf _ isosOpt e1 hstep
        | ok cur =>
          simp only [hstep] at h
          exact wpYearStep_error_usage mdf cur _ e h

/-- C8: whenever the product is annual and no years argument was given,
or the product is static and a years argument was given,
`wp_manifest_constrained` raises a usage error (a ValueError about the
arguments) — never a coverage error. -/
theorem C8_usage_error_before_coverage
    (mdf : List ManifestRow) (cy : Nat) (p : String) (isos : List String)
    (years : YearsArg)
    (hcase : (_is_annual_product mdf cy p = .ok true ∧ years = .noYears) ∨
      (_is_annual_product mdf cy p = .ok false ∧ years ≠ .noYears)) :
    ∃ e, wp_manifest_constrained mdf cy p isos years = .error e ∧
      usageError e = true := by
  unfold wp_manifest_constrained
  cases hw : wp_manifest mdf cy (some p) (some isos) years with
  | error e =>
    exact ⟨e, rfl, wp_manifest_error_usage mdf cy (some p) (some isos) years e hw⟩
  | ok filtered =>
    rcases hcase with ⟨hia, hny⟩ | ⟨hia, hny⟩
    · simp only [hia]
      subst hny
      exact ⟨.yearsRequired p, rfl, rfl⟩
    · simp only [hia]
      rw [if_pos hny]
      exact ⟨.yearsForbidden p, rfl, rfl⟩

/-- C8 witness: requesting the annual product without a years argument on
the concrete manifest raises the years-required usage error. -/
theorem C8_witness :
    ∃ e, wp_manifest_constrained M1 2026 "ppp" ["LIE"] .noYears = .error e ∧
      usageError e = true :=
  C8_usage_error_before_coverage M1 2026 "ppp" ["LIE"] .noYears
    (Or.inl ⟨by decide, rfl⟩)

/-- C3 counterexample: with the all-years wildcard, the code re-derives
the year set from the already region-filtered rows, not from all years of
the product. On the concrete manifest the product has years 2010 and 2011,
but requesting the region that only has 2010 succeeds with one row —
not the two rows the claim computes from all available years of the
product. -/
theorem C3_all_wildcard_counterexample :
    wp_manifest_constrained M1 2026 "ppp" ["CHE"] .all =
      .ok [mkRow 3 "CHE" "ppp_2010" "ppp" true (some 2010)] ∧
    productYears M1 "ppp" = [2010, 2011] ∧
    [mkRow 3 "CHE" "ppp_2010" "ppp" true (some 2010)].length ≠
      ["CHE"].length * (productYears M1 "ppp").length := by
  refine ⟨by decide, by decide, by decide⟩

/-- C3 (amended): whenever `wp_manifest_constrained` returns without
raising, the row count is exactly `|iso3_codes| * |years|` for an annual
product — where under the all-years wildcard the years are the distinct
year values present in the returned rows themselves (the years available
for that product among the requested regions) — and exactly
`|iso3_codes|` for a static product; when fewer rows match it raises the
coverage error carrying, for annual products, the per-region map of
actually available years and, for static products, the entirely missing
regions. -/
theorem C3_coverage_count (mdf : List ManifestRow) (cy : Nat) (p : String)
    (isos : List String) (years : YearsArg) :
    (∀ rows, wp_manifest_constrained mdf cy p isos years = .ok rows →
      (years = .noYears → rows.length = isos.length) ∧
      (∀ ys, years = .list ys → rows.length = isos.length * ys.length) ∧
      (years = .all →
        rows.length = isos.length * ((rows.map (fun r => r.year)).eraseDups).length)) ∧
    (∀ q avail,
      wp_manifest_constrained mdf cy p isos years = .error (.coverageAnnual q avail) →
      q = p ∧ ∃ filtered, wp_manifest mdf cy (some p) (some isos) years = .ok filtered ∧
        avail = availableGrps filtered) ∧
    (∀ q missing,
      wp_manifest_constrained mdf cy p isos years = .error (.coverageStatic q missing) →
      q = p ∧ ∃ filtered, wp_manifest mdf cy (some p) (some isos) years = .ok filtered ∧
        missing = (isos.filter (fun i => !(filtered.map (fun r => r.iso3)).contains i)).eraseDups ∧
        filtered.length < isos.length) := by
  unfold wp_manifest_constrained
  cases hw : wp_manifest mdf cy (some p) (some isos) years with
  | error e =>
    have husage := wp_manifest_error_usage mdf cy (some p) (some isos) years e hw
    refine ⟨?_, ?_, ?_⟩
    · intro rows h; cases h
    · intro q avail h
      injection h with h1
      rw [h1] at husage
      simp [usageError] at husage
    · intro q missing h
      injection h with h1
      rw [h1] at husage
      simp [usageError] at husage
  | ok filtered =>
    cases hia : _is_annual_product mdf cy p with
    | error e =>
      exfalso
      unfold wp_manifest at hw
      rw [if_neg (by simp)] at hw
      simp only [hia] at hw
      exact Except.noConfusion hw
    | ok ia =>
      cases ia with
      | true =>
        cases years with
        | noYears =>
          simp only [hia]
          refine ⟨?_, ?_, ?_⟩
          · intro rows h; cases h
          · intro q avail h; simp at h
          · intro q missing h; simp at h
        | list ys =>
          simp only [hia]
          unfold coverCheckAnnual
          by_cases hlt : filtered.length < isos.length * ys.length
          · rw [if_pos hlt]
            refine ⟨?_, ?_, ?_⟩
            · intro rows h; cases h
            · intro q avail h
              injection h with h1
              injection h1 with hq hav
              exact ⟨hq.symm, filtered, rfl, hav.symm⟩
            · intro q missing h; simp at h
          · rw [if_neg hlt]
            by_cases hne : isos.length * ys.length ≠ filtered.length
            · rw [if_pos hne]
              refine ⟨?_, ?_, ?_⟩
              · intro rows h; cases h
              · intro q avail h; simp at h
              · intro q missing h; simp at h
            · rw [if_neg hne]
              refine ⟨?_, ?_, ?_⟩
              · intro rows h
                injection h with h1
                refine ⟨?_, ?_, ?_⟩
                · intro hx; cases hx
                · intro ys' hys'
                  injection hys' with h2
                  rw [← h1, ← h2]
                  omega
                · intro hx; cases hx
              · intro q avail h; cases h
              · intro q missing h; cases h
        | all =>
          simp only [hia]
          by_cases hnu : ((filtered.map (fun r => r.product_name)).eraseDups).length ≠ 1
          · rw [if_pos hnu]
            refine ⟨?_, ?_, ?_⟩
            · intro rows h; cases h
            · intro q avail h; simp at h
            · intro q missing h; simp at h
          · rw [if_neg hnu]
            unfold coverCheckAnnual
            by_cases hlt :
                filtered.length < isos.length * ((filtered.map (fun r => r.year)).eraseDups).length
            · rw [if_pos hlt]
              refine ⟨?_, ?_, ?_⟩
              · intro rows h; cases h
              · intro q avail h
                injection h with h1
                injection h1 with hq hav
                exact ⟨hq.symm, filtered, rfl, hav.symm⟩
              · intro q missing h; simp at h
            · rw [if_neg hlt]
              by_cases hne :
                  isos.length * ((filtered.map (fun r => r.year)).eraseDups).length ≠ filtered.length
              · rw [if_pos hne]
                refine ⟨?_, ?_, ?_⟩
                · intro rows h; cases h
                · intro q avail h; simp at h
                · intro q missing h; simp at h
              · rw [if_neg hne]
                refine ⟨?_, ?_, ?_⟩
                · intro rows h
                  injection h with h1
                  refine ⟨?_, ?_, ?_⟩
                  · intro hx; cases hx
                  · intro ys' hys'; cases hys'
                  · intro _
                    rw [← h1]
                    omega
                · intro q avail h; cases h
                · intro q missing h; cases h
      | false =>
        simp only [hia]
        by_cases hyrs : years = .noYears
        · rw [if_neg (by simp [hyrs])]
          by_cases hlt : filtered.length < isos.length
          · rw [if_pos hlt]
            refine ⟨?_, ?_, ?_⟩
            · intro rows h; cases h
            · intro q avail h; simp at h
            · intro q missing h
              injection h with h1
              injection h1 with hq hmiss
              exact ⟨hq.symm, filtered, rfl, hmiss.symm, hlt⟩
          · rw [if_neg hlt]
            by_cases hne : isos.length ≠ filtered.length
            · rw [if_pos hne]
              refine ⟨?_, ?_, ?_⟩
              · intro rows h; cases h
              · intro q avail h; simp at h
              · intro q missing h; simp at h
            · rw [if_neg hne]
              refine ⟨?_, ?_, ?_⟩
              · intro rows h
                injection h with h1
                refine ⟨?_, ?_, ?_⟩
                · intro _
                  rw [← h1]
                  omega
                · intro ys' hys'
                  rw [hyrs] at hys'
                  cases hys'
                · intro hx
                  rw [hyrs] at hx
                  cases hx
              · intro q avail h; cases h
              · intro q missing h; cases h
        · rw [if_pos hyrs]
          refine ⟨?_, ?_, ?_⟩
          · intro rows h; cases h
          · intro q avail h; simp at h
          · intro q missing h; simp at h

/-- C3 witness: on the concrete manifest, a concrete-years request
returns exactly one row per requested (region, year) pair. -/
theorem C3_witness :
    ∃ rows, wp_manifest_constrained M1 2026 "ppp" ["LIE"] (.list [2010, 2011]) = .ok rows ∧
      rows.length = ["LIE"].length * [2010, 2011].length := by
  refine ⟨_, rfl, ?_⟩
  exact ((C3_coverage_count M1 2026 "ppp" ["LIE"] (.list [2010, 2011])).1 _
    (by decide)).2.1 [2010, 2011] rfl

/-- C1 counterexample: a call that hits a network-classified error while
fetching the remote hash completes without an exception (an
unreachable no-op returning None) yet does not touch the last-check
timestamp — the touch happens only on the equal-hash and refresh paths. -/
theorem C1_network_noop_counterexample :
    build_wp_manifest false 2026 envNetDown =
      { result := .ok none, touched := false } := by decide

/-- C1 (amended): the last-check timestamp is touched exactly when the
call completes having refreshed the manifest or having found the local
hash equal to the remote one; the network-unreachable staleness check
completes (returns None) without touching it, and a propagating error
never touches it. -/
theorem C1_touch_characterization (ov : Bool) (cy : Nat) (env : SyncEnv) :
    ((build_wp_manifest ov cy env).touched = true ↔
      (∃ v, (build_wp_manifest ov cy env).result = .ok v ∧
        (v.isSome = true ∨
          (env.manifestOnDisk = true ∧ ov = false ∧
            ∃ h, env.hashOnDisk = some h ∧ env.remoteHashFetch = .ok h)))) ∧
    (∀ e, env.remoteHashFetch = .error e → caughtByHashCheck e = true →
      env.manifestOnDisk = true → ov = false → env.hashOnDisk.isSome = true →
      build_wp_manifest ov cy env = { result := .ok none, touched := false }) := by
  unfold build_wp_manifest refreshManifest
  by_cases hcond : (env.manifestOnDisk && !ov) = true
  · rw [if_pos hcond]
    rw [Bool.and_eq_true, Bool.not_eq_true'] at hcond
    cases hh : env.hashOnDisk with
    | none =>
      dsimp only
      cases hcsv : env.csvFetch with
      | error e =>
        dsimp only
        constructor
        · constructor
          · intro hx; cases hx
          · rintro ⟨v, hv, _⟩; cases hv
        · intro e' _ _ _ _ hhash
          simp at hhash
      | ok raw =>
        dsimp only
        constructor
        · exact ⟨fun _ => ⟨some (raw.map (cleanRow cy)), rfl, Or.inl rfl⟩, fun _ => rfl⟩
        · intro e' _ _ _ _ hhash
          simp at hhash
    | some lh =>
      dsimp only
      cases hr : env.remoteHashFetch with
      | ok rh =>
        dsimp only
        by_cases heq : rh = lh
        · rw [if_pos heq]
          constructor
          · refine ⟨fun _ => ⟨none, rfl, Or.inr ⟨hcond.1, hcond.2, lh, rfl, ?_⟩⟩, fun _ => rfl⟩
            rw [heq]
          · intro e he
            cases he
        · rw [if_neg heq]
          cases hcsv : env.csvFetch with
          | error e =>
            dsimp only
            constructor
            · constructor
              · intro hx; cases hx
              · rintro ⟨v, hv, _⟩; cases hv
            · intro e' he'
              cases he'
          | ok raw =>
            dsimp only
            constructor
            · exact ⟨fun _ => ⟨some (raw.map (cleanRow cy)), rfl, Or.inl rfl⟩, fun _ => rfl⟩
            · intro e' he'
              cases he'
      | error e0 =>
        dsimp only
        by_cases hcaught : caughtByHashCheck e0 = true
        · rw [if_pos hcaught]
          constructor
          · constructor
            · intro hx; cases hx
            · rintro ⟨v, hv, hcase⟩
              injection hv with hv1
              rcases hcase with hsome | ⟨_, _, h, _, habs⟩
              · rw [← hv1] at hsome; cases hsome
              · cases habs
          · intro e' he' _ _ _ _
            cases he'
            rfl
        · rw [if_neg hcaught]
          constructor
          · constructor
            · intro hx; cases hx
            · rintro ⟨v, hv, _⟩; cases hv
          · intro e' he' hc _ _ _
            injection he' with he1
            rw [← he1] at hc
            exact absurd hc hcaught
  · rw [if_neg hcond]
    cases hcsv : env.csvFetch with
    | error e =>
      dsimp only
      constructor
      · constructor
        · intro hx; cases hx
        · rintro ⟨v, hv, _⟩; cases hv
      · intro e' _ _ hm hov _
        rw [hm, hov] at hcond
        simp at hcond
    | ok raw =>
      dsimp only
      constructor
      · exact ⟨fun _ => ⟨some (raw.map (cleanRow cy)), rfl, Or.inl rfl⟩, fun _ => rfl⟩
      · intro e' _ _ hm hov _
        rw [hm, hov] at hcond
        simp at hcond

/-- Helper: the body of `_download_file` can only raise a non-HTTP
exception (the rename OSError) — every httpx error is swallowed by the
inner `except Exception` and turned into a failure result. -/
theorem downloadFileBody_error_not_http (skip : Bool) (env : FileEnv) (i : Nat)
    (e : PyExn) (h : downloadFileBody skip env i = .error e) :
    isHTTPError e = false := by
  unfold downloadFileBody at h
  split at h
  · cases h
  · cases hg : env.getOutcome i with
    | error e1 => simp only [hg] at h; cases h
    | ok u =>
      simp only [hg] at h
      cases hrn : env.renameOutcome i with
      | error msg =>
        simp only [hrn] at h
        injection h with h1
        rw [← h1]
        rfl
      | ok u2 => simp only [hrn] at h; cases h

/-- Helper: when the wrapped function never raises a retryable exception,
the backoff wrapper returns exactly the first call's outcome. -/
theorem backoffRun_no_retry (retryable : PyExn → Bool)
    (f : Nat → Except PyExn DownloadResult)
    (hf : ∀ i e, f i = .error e → retryable e = false) :
    ∀ fuel i, backoffRun retryable f fuel i = f i := by
  intro fuel i
  match fuel with
  | 0 => rfl
  | 1 => rfl
  | n + 2 =>
    cases hfi : f i with
    | ok a => simp [backoffRun, hfi]
    | error e => simp [backoffRun, hfi, hf i e hfi]

/-- Helper: `_download_file` is always the outcome of its first attempt:
the retry decorator can never fire, because the body converts every
`httpx.HTTPError` into a failure result and re-raises only OSErrors,
which the decorator does not retry. -/
theorem download_file_eq_first (skip : Bool) (env : FileEnv) :
    _download_file skip env = downloadFileBody skip env 0 :=
  backoffRun_no_retry isHTTPError (downloadFileBody skip env)
    (downloadFileBody_error_not_http skip env) 5 0

/-- C2: evaluation at the failing input. The first transfer attempt fails
with a transient transport error (a timeout, an `httpx.HTTPError` the
decorator is configured to retry, cap 5), every later attempt would
succeed, yet `_download_file` returns a failed DownloadResult — the
inner catch-all swallows the error before the backoff wrapper can see
it. The size probe, which has no retry wrapper at all, fails the same
way. Each failure then contributes one aggregate failure entry. -/
theorem C2_retry_never_fires :
    _download_file false envFlaky =
      .ok { success := false, value := none,
            error := some (.http (.transport "https://data.worldpop.org/GIS/ppp_2010/LIE.tif")) } ∧
    envFlaky.getOutcome 0 =
      .error (.http (.transport "https://data.worldpop.org/GIS/ppp_2010/LIE.tif")) ∧
    isHTTPError (.http (.transport "https://data.worldpop.org/GIS/ppp_2010/LIE.tif")) = true ∧
    envFlaky.getOutcome 1 = .ok () ∧ envFlaky.getOutcome 2 = .ok () ∧
    envFlaky.getOutcome 3 = .ok () ∧ envFlaky.getOutcome 4 = .ok () ∧
    _get_required_file_download_size false envFlaky =
      { success := false, value := none,
        error :=
          some (.http (.transport "https://data.worldpop.org/GIS/ppp_2010/LIE.tif")) } := by
  refine ⟨by decide, by decide, rfl, by decide, by decide, by decide, by decide, by decide⟩

/-- C4 counterexample: a dry-run call on a fully warm cache completes and
returns the lexically sorted list of local paths (with the printed
report (0, 0)) — it does not return None; the None for dry runs is
produced by the higher-level `wp_raster` caller. -/
theorem C4_dry_run_counterexample :
    download M1 2026 "cache" "ppp" ["LIE"] (.list [2010, 2011]) true true envWarm =
      .ok { paths := ["cache/ppp_LIE_2010.tif", "cache/ppp_LIE_2011.tif"],
            report := some (0, 0) } := by decide

/-- C4 (amended): a dry-run call transfers no payload and either raises
the typed DownloadSizeCheckError (when at least one probe failed) or
returns the same lexically sorted list of local paths a successful real
run would return, with the (file count, total size) report only printed,
not returned as the value. -/
theorem C4_dry_run_returns_paths (mdf : List ManifestRow) (cy : Nat)
    (dir : String) (p : String) (isos : List String) (years : YearsArg)
    (skip : Bool) (env : Nat → FileEnv) (rows : List ManifestRow)
    (hres : wp_manifest_constrained mdf cy p isos years = .ok rows) :
    (∃ errs, download mdf cy dir p isos years skip true env =
        .error (.sizeCheck errs) ∧ errs ≠ []) ∨
    download mdf cy dir p isos years skip true env =
      .ok { paths := sortStrings (localPathsOf dir rows),
            report := some (dryStats (perFileSizeResults skip env rows.length)) } := by
  unfold download
  simp only [hres]
  rw [if_pos trivial]
  by_cases herrs : collectFailures (perFileSizeResults skip env rows.length) = []
  · right
    rw [if_neg (by simp [herrs])]
  · left
    refine ⟨collectFailures (perFileSizeResults skip env rows.length), ?_, herrs⟩
    rw [if_pos herrs]

/-- C4 witness: the amended statement applied to a concrete cold-cache
dry run. -/
theorem C4_witness :
    (∃ errs, download M1 2026 "cache" "ppp" ["LIE"] (.list [2010, 2011]) true true envCold =
        .error (.sizeCheck errs) ∧ errs ≠ []) ∨
    download M1 2026 "cache" "ppp" ["LIE"] (.list [2010, 2011]) true true envCold =
      .ok { paths := sortStrings (localPathsOf "cache" M1ppLIE),
            report := some (dryStats (perFileSizeResults true envCold M1ppLIE.length)) } :=
  C4_dry_run_returns_paths M1 2026 "cache" "ppp" ["LIE"] (.list [2010, 2011])
    true envCold M1ppLIE (by decide)

/-- C6: on a real run in which no worker raised, `download` returns the
lexically sorted list of all local paths — those of skipped files
included — exactly when no per-file operation failed, and otherwise
raises a single DownloadError enumerating exactly the failed files'
captured errors. -/
theorem C6_aggregate_error_iff (mdf : List ManifestRow) (cy : Nat)
    (dir : String) (p : String) (isos : List String) (years : YearsArg)
    (skip : Bool) (env : Nat → FileEnv) (rows : List ManifestRow)
    (hres : wp_manifest_constrained mdf cy p isos years = .ok rows)
    (hnoraise : firstRaised (perFileDownloadResults skip env rows.length) = none) :
    (collectFailures ((perFileDownloadResults skip env rows.length).filterMap
        (fun r => r.toOption)) = [] →
      download mdf cy dir p isos years skip false env =
        .ok { paths := sortStrings (localPathsOf dir rows), report := none }) ∧
    (collectFailures ((perFileDownloadResults skip env rows.length).filterMap
        (fun r => r.toOption)) ≠ [] →
      download mdf cy dir p isos years skip false env =
        .error (.downloadFailed (collectFailures
          ((perFileDownloadResults skip env rows.length).filterMap (fun r => r.toOption))))) := by
  unfold download
  simp only [hres]
  rw [if_neg (by simp)]
  simp only [hnoraise]
  constructor
  · intro hnone
    rw [if_neg (by simp [hnone])]
  · intro hne
    rw [if_pos hne]

/-- C6 witness: a concrete fully successful real run returns the sorted
path list. -/
theorem C6_witness :
    download M1 2026 "cache" "ppp" ["LIE"] (.list [2010, 2011]) true false envCold =
      .ok { paths := sortStrings (localPathsOf "cache" M1ppLIE), report := none } :=
  (C6_aggregate_error_iff M1 2026 "cache" "ppp" ["LIE"] (.list [2010, 2011])
    true envCold M1ppLIE (by decide) (by decide)).1 (by decide)

/-- C7: a dry run over a nonempty resolved request in which no file
exists locally and every HEAD probe reports a positive size reports
exactly the request size as file count and a strictly positive total;
a dry run with skip-if-exists over a fully warm cache reports zero files
and zero total size. -/
theorem C7_dry_run_stats (mdf : List ManifestRow) (cy : Nat) (dir : String)
    (p : String) (isos : List String) (years : YearsArg) (skip : Bool)
    (env : Nat → FileEnv) (rows : List ManifestRow)
    (hres : wp_manifest_constrained mdf cy p isos years = .ok rows) :
    ((rows ≠ [] ∧ ∀ i, i < rows.length →
        (env i).localExists = false ∧ ∃ s, (env i).head = .ok (some s) ∧ 0 < s) →
      ∃ total, download mdf cy dir p isos years skip true env =
        .ok { paths := sortStrings (localPathsOf dir rows),
              report := some (rows.length, total) } ∧ 0 < total) ∧
    ((skip = true ∧ ∀ i, i < rows.length → (env i).localExists = true) →
      download mdf cy dir p isos years skip true env =
        .ok { paths := sortStrings (localPathsOf dir rows),
              report := some (0, 0) }) := by
  constructor
  · rintro ⟨hnil, hcold⟩
    have hprobe : ∀ r ∈ perFileSizeResults skip env rows.length,
        r.success = true ∧ 0 < r.value.getD 0 := by
      intro r hr
      unfold perFileSizeResults at hr
      obtain ⟨i, hi, hfi⟩ := List.mem_map.1 hr
      rw [List.mem_range] at hi
      obtain ⟨hle, s, hhead, hs⟩ := hcold i hi
      unfold _get_required_file_download_size at hfi
      rw [hle] at hfi
      rw [if_neg (by simp)] at hfi
      rw [hhead] at hfi
      rw [← hfi]
      exact ⟨rfl, by simpa using hs⟩
    have hfilterPos : (perFileSizeResults skip env rows.length).filter
        (fun r => r.success && decide (0 < r.value.getD 0)) =
        perFileSizeResults skip env rows.length := by
      rw [List.filter_eq_self]
      intro r hr
      obtain ⟨h1, h2⟩ := hprobe r hr
      rw [h1]
      simpa using h2
    have hcf : collectFailures (perFileSizeResults skip env rows.length) = [] := by
      unfold collectFailures
      have hfn : (perFileSizeResults skip env rows.length).filter
          (fun r => !r.success) = [] := by
        rw [List.filter_eq_nil_iff]
        intro r hr
        rw [(hprobe r hr).1]
        simp
      rw [hfn]
      rfl
    have hlen : (perFileSizeResults skip env rows.length).length = rows.length := by
      unfold perFileSizeResults
      rw [List.length_map, List.length_range]
    have hne : perFileSizeResults skip env rows.length ≠ [] := by
      intro hx
      rw [hx] at hlen
      have h0 : rows.length = 0 := by simpa using hlen.symm
      exact hnil (List.length_eq_zero.1 h0)
    have hsum : 0 < ((perFileSizeResults skip env rows.length).map
        (fun r => r.value.getD 0)).sum := by
      apply List.sum_pos
      · intro x hx
        obtain ⟨r, hr, hxr⟩ := List.mem_map.1 hx
        rw [← hxr]
        exact (hprobe r hr).2
      · intro hx
        rw [List.map_eq_nil_iff] at hx
        exact hne hx
    have hstats : dryStats (perFileSizeResults skip env rows.length) =
        (rows.length, ((perFileSizeResults skip env rows.length).map
          (fun r => r.value.getD 0)).sum) := by
      unfold dryStats
      rw [hfilterPos]
      dsimp only
      rw [hlen]
    refine ⟨_, ?_, hsum⟩
    unfold download
    simp only [hres]
    rw [if_pos trivial]
    rw [if_neg (by simp [hcf])]
    rw [hstats]
  · rintro ⟨hskip, hwarm⟩
    subst hskip
    have hprobe2 : ∀ r ∈ perFileSizeResults true env rows.length,
        r = { success := true, value := some 0, error := none } := by
      intro r hr
      unfold perFileSizeResults at hr
      obtain ⟨i, hi, hfi⟩ := List.mem_map.1 hr
      rw [List.mem_range] at hi
      unfold _get_required_file_download_size at hfi
      rw [hwarm i hi] at hfi
      rw [if_pos (by simp)] at hfi
      exact hfi.symm
    have hcf : collectFailures (perFileSizeResults true env rows.length) = [] := by
      unfold collectFailures
      have hfn : (perFileSizeResults true env rows.length).filter
          (fun r => !r.success) = [] := by
        rw [List.filter_eq_nil_iff]
        intro r hr
        rw [hprobe2 r hr]
        simp
      rw [hfn]
      rfl
    have hstats : dryStats (perFileSizeResults true env rows.length) = (0, 0) := by
      unfold dryStats
      have hfp : (perFileSizeResults true env rows.length).filter
          (fun r => r.success && decide (0 < r.value.getD 0)) = [] := by
        rw [List.filter_eq_nil_iff]
        intro r hr
        rw [hprobe2 r hr]
        simp
      rw [hfp]
      rfl
    unfold download
    simp only [hres]
    rw [if_pos trivial]
    rw [if_neg (by simp [hcf])]
    rw [hstats]

/-- C7 witness: the cold-cache half applied to a concrete request of two
files with positive remote sizes. -/
theorem C7_witness :
    ∃ total, download M1 2026 "cache" "ppp" ["LIE"] (.list [2010, 2011]) true true envCold =
      .ok { paths := sortStrings (localPathsOf "cache" M1ppLIE),
            report := some (M1ppLIE.length, total) } ∧ 0 < total :=
  (C7_dry_run_stats M1 2026 "cache" "ppp" ["LIE"] (.list [2010, 2011]) true envCold
    M1ppLIE (by decide)).1
    ⟨by decide, fun i _ => ⟨rfl, 1000000 + i, rfl, by omega⟩⟩

end WorldPopPy
